import Mathlib

/-!
# A shallow embedding of the glTF v2 reference/validation/accessor core

This file embeds, in Lean, the cross-reference resolution, validation and
typed-accessor subsystem of the glTF loader (the `v2` module tree of the
crate), and proves the behavioural properties claimed for it.

Conventions of the embedding:

* `u32` fields become `Nat` (every cast in the source is `u32 -> usize`,
  which is lossless on the targets the crate supports).
* `Vec<T>` becomes `List T`; `Index<T>` (a `u32` offset plus a phantom
  tag) becomes a plain `Nat`.
* `Result<&T, ()>` becomes `Except Unit`.
* A Rust function that can panic is embedded either with the panic
  precondition as an explicit hypothesis (`get`) or with an `Option`
  result where `none` marks the panic (`Iter` construction).
* Validator callbacks `warn`/`err` are embedded by returning the pair
  (warning list, error list) in emission order.
* Fields that no embedded function ever reads (user-defined `name`s,
  `extras`/extension blobs, buffer URIs, the floating-point transform
  payloads of `Node`, generic `Extras` type parameters) are omitted from
  the structures; no behaviour modelled here depends on them.
* The raw `accessor`, `material` and `mesh` modules are not part of the
  available sources (only their callers are).  `Accessor` and its
  `component_size` are modelled from the spec (marked below); the
  `material`/`mesh` element types and validators are kept parametric.
-/

namespace Gltf

/-- A validation diagnostic: `(source, description)`, as fed to the
`warn`/`err` callbacks of `Validate::validate`. -/
abbrev Diag := String × String

/-- Result of one validator invocation: the warnings and the errors it
emitted, each in emission order. -/
abbrev DiagPair := List Diag × List Diag

/-- `TryGet::try_get` from `v2/raw/root.rs` (and the identical
`impl_try_get!` in `v2/root.rs`): `self.field.get(index.value() as
usize).ok_or(())`.  Defined once, generically, exactly as the macro
instantiates it for every top-level collection. -/
def tryGet {α : Type} (xs : List α) (i : Nat) : Except Unit α :=
  match xs[i]? with
  | some x => Except.ok x
  | none => Except.error ()

/-- `Get::get` from `v2/raw/root.rs`: `&self.field[index.value() as
usize]`.  The Rust indexing panics out of bounds, so the embedding takes
the bound as a precondition. -/
def get {α : Type} (xs : List α) (i : Nat) (h : i < xs.length) : α :=
  xs.get ⟨i, h⟩

/-- `raw::buffer::Buffer` (the `byte_length` field; `uri`/`name` are
never read by the embedded functions). -/
structure Buffer where
  byte_length : Nat
deriving Repr, DecidableEq

/-- `raw::buffer::BufferView`. -/
structure BufferView where
  buffer : Nat
  byte_length : Nat
  byte_offset : Nat
  byte_stride : Nat
deriving Repr, DecidableEq

/-- `raw::camera::CameraType`. -/
inductive CameraType where
  | Orthographic
  | Perspective
deriving Repr, DecidableEq

/-- `raw::camera::Orthographic` (projection parameters; validation never
reads them, only the presence of the block). -/
structure Orthographic where
  xmag : Float
  ymag : Float
  zfar : Float
  znear : Float

/-- `raw::camera::Perspective`. -/
structure Perspective where
  aspect_ratio : Float
  yfov : Float
  zfar : Float
  znear : Float

/-- `raw::camera::Camera`. -/
structure Camera where
  orthographic : Option Orthographic
  perspective : Option Perspective
  ty : CameraType

/-- `raw::image::Image` (`mime_type`/`uri` unread). -/
structure Image where
  buffer_view : Option Nat
deriving Repr, DecidableEq

/-- `raw::scene::Node` (the `matrix`/`rotation`/`scale`/`translation`/
`weights` floating-point payloads are never read by validation and are
omitted). -/
structure Node where
  camera : Option Nat
  children : List Nat
  mesh : Option Nat
  skin : Option Nat
deriving Repr, DecidableEq

/-- `raw::scene::Scene`. -/
structure Scene where
  nodes : List Nat
deriving Repr, DecidableEq

/-- `raw::skin::Skin`. -/
structure Skin where
  inverse_bind_matrices : Option Nat
  joints : List Nat
  skeleton : Option Nat
deriving Repr, DecidableEq

/-- `raw::texture::MagFilter`. -/
inductive MagFilter where
  | Nearest
  | Linear
deriving Repr, DecidableEq

/-- `raw::texture::MinFilter`. -/
inductive MinFilter where
  | Nearest
  | Linear
  | NearestMipmapNearest
  | LinearMipmapNearest
  | NearestMipmapLinear
  | LinearMipmapLinear
deriving Repr, DecidableEq

/-- `raw::texture::WrappingMode`. -/
inductive WrappingMode where
  | ClampToEdge
  | MirroredRepeat
  | Repeat
deriving Repr, DecidableEq

/-- `raw::texture::DataType`. -/
inductive TexDataType where
  | U8
  | U16R5G6B5
  | U16R4G4B4A4
  | U16R5G5B5A1
deriving Repr, DecidableEq

/-- `raw::texture::Format`. -/
inductive TexFormat where
  | Alpha
  | Rgb
  | Rgba
  | Luminance
  | LuminanceAlpha
deriving Repr, DecidableEq

/-- `raw::texture::Target`. -/
inductive TexTarget where
  | Texture2d
deriving Repr, DecidableEq

/-- `raw::texture::Sampler`. -/
structure Sampler where
  mag_filter : MagFilter
  min_filter : MinFilter
  wrap_s : WrappingMode
  wrap_t : WrappingMode
deriving Repr, DecidableEq

/-- `raw::texture::Texture`. -/
structure Texture where
  data_type : TexDataType
  format : TexFormat
  internal_format : TexFormat
  sampler : Nat
  source : Nat
  target : TexTarget
deriving Repr, DecidableEq

/-- `raw::animation::Interpolation`. -/
inductive Interpolation where
  | Linear
  | Step
deriving Repr, DecidableEq

/-- `raw::animation::Path`. -/
inductive AnimPath where
  | Rotation
  | Scale
  | Translation
  | Weights
deriving Repr, DecidableEq

/-- `raw::animation::Target`. -/
structure AnimTarget where
  node : Nat
  path : AnimPath
deriving Repr, DecidableEq

/-- `raw::animation::Sampler`. -/
structure AnimSampler where
  input : Nat
  interpolation : Interpolation
  output : Nat
deriving Repr, DecidableEq

/-- `raw::animation::Channel`. -/
structure Channel where
  sampler : Nat
  target : AnimTarget
deriving Repr, DecidableEq

/-- `raw::animation::Animation`. -/
structure Animation where
  channels : List Channel
  samplers : List AnimSampler
deriving Repr, DecidableEq

/-- Modelled from the spec: the raw `accessor` module is missing from the
available sources; its component-type taxonomy is the closed table of
§4.2/§6 (uint8/uint16/uint32/float32). -/
inductive ComponentType where
  | U8
  | U16
  | U32
  | F32
deriving Repr, DecidableEq

/-- Modelled from the spec: byte size of one component. -/
def ComponentType.size : ComponentType → Nat
  | U8 => 1
  | U16 => 2
  | U32 => 4
  | F32 => 4

/-- Modelled from the spec: the shape-kind ("the element arity of an
accessor's value (scalar, 2/3/4-vector)"). -/
inductive AccessorKind where
  | Scalar
  | Vec2
  | Vec3
  | Vec4
deriving Repr, DecidableEq

/-- Modelled from the spec: element arity of a shape-kind. -/
def AccessorKind.arity : AccessorKind → Nat
  | Scalar => 1
  | Vec2 => 2
  | Vec3 => 3
  | Vec4 => 4

/-- Modelled from the spec: the raw `accessor` module is missing from the
available sources.  Per §3, an accessor is "a (buffer-view-ref,
byte-offset, component-type, shape-kind, count) tuple"; the field names
follow the accesses made by its callers (`v2/accessor.rs`,
`v2/tree/accessor.rs`). -/
structure Accessor where
  buffer_view : Nat
  byte_offset : Nat
  component_type : ComponentType
  kind : AccessorKind
  count : Nat
deriving Repr, DecidableEq

/-- Modelled from the spec: `raw::accessor::Accessor::component_size`,
the "declared per-element byte size (component-type size × shape-kind
arity)", as compared against `size_of::<T>()` by both iterator
constructors. -/
def Accessor.component_size (a : Accessor) : Nat :=
  a.component_type.size * a.kind.arity

/-- `raw::root::Root`.  `Mat`/`MeshT` stand for the raw material and mesh
element types, whose modules are missing from the available sources; no
embedded function reads into them.  Fields never read by the embedded
functions (`asset`, extension name lists) are omitted. -/
structure RawRoot (Mat MeshT : Type) where
  accessors : List Accessor
  animations : List Animation
  buffers : List Buffer
  buffer_views : List BufferView
  default_scene : Nat
  cameras : List Camera
  images : List Image
  materials : List Mat
  meshes : List MeshT
  nodes : List Node
  samplers : List Sampler
  scenes : List Scene
  skins : List Skin
  textures : List Texture

/-- One `for (i, x) in xs.iter().enumerate()` loop of a validator, where
`gen i x` is the list of diagnostics the loop body emits for the `i`-th
element.  `i0` is the index of the first element of `xs`. -/
def forEachIdx {α : Type} (gen : Nat → α → List Diag) : Nat → List α → List Diag
  | _, [] => []
  | i0, x :: xs => gen i0 x ++ forEachIdx gen (i0 + 1) xs

/-- `Validate for Buffer` in `v2/raw/buffer.rs`: a nop. -/
def bufferValidate (_b : Buffer) : DiagPair := ([], [])

/-- `Validate for BufferView` in `v2/raw/buffer.rs`. -/
def bufferViewValidate {Mat MeshT : Type} (root : RawRoot Mat MeshT)
    (v : BufferView) : DiagPair :=
  match tryGet root.buffers v.buffer with
  | Except.ok buffer =>
    if v.byte_offset + v.byte_length > buffer.byte_length then
      ([], [("\x7bbyte_offset, byte_length\x7d", "Oversized buffer view")])
    else ([], [])
  | Except.error _ => ([], [("buffer", "Index out of range")])

/-- `Validate for Camera` in `v2/raw/camera.rs` (reads no root data). -/
def cameraValidate (c : Camera) : DiagPair :=
  match c.ty with
  | CameraType.Orthographic =>
    ((if c.perspective.isSome then [("perspective", "Redundant data")] else []),
     (if c.orthographic.isNone then [("orthographic", "Missing data")] else []))
  | CameraType.Perspective =>
    ((if c.orthographic.isSome then [("orthographic", "Redundant data")] else []),
     (if c.perspective.isNone then [("perspective", "Missing data")] else []))

/-- `Validate for Image` in `v2/raw/image.rs`. -/
def imageValidate {Mat MeshT : Type} (root : RawRoot Mat MeshT)
    (img : Image) : DiagPair :=
  ([],
   match img.buffer_view with
   | some bv =>
     match tryGet root.buffer_views bv with
     | Except.error _ => [("bufferView", "Index out of range")]
     | Except.ok _ => []
   | none => [])

/-- Body of the `children` loop in `Validate for Node`
(`v2/raw/scene.rs`). -/
def nodeChildCheck {Mat MeshT : Type} (root : RawRoot Mat MeshT)
    (i : Nat) (child : Nat) : List Diag :=
  match tryGet root.nodes child with
  | Except.error _ => [("children[" ++ Nat.repr i ++ "]", "Index out of range")]
  | Except.ok _ => []

/-- `Validate for Node` in `v2/raw/scene.rs`.  Note: in the source the
`children` loop is nested inside the `if let Some(camera)` block, so the
child references are only checked when a camera reference is present;
the embedding reproduces that nesting. -/
def nodeValidate {Mat MeshT : Type} (root : RawRoot Mat MeshT)
    (n : Node) : DiagPair :=
  ([],
   (match n.camera with
    | some camera =>
      (match tryGet root.cameras camera with
       | Except.error _ => [("camera", "Index out of range")]
       | Except.ok _ => [])
      ++ forEachIdx (nodeChildCheck root) 0 n.children
    | none => [])
   ++ (match n.mesh with
       | some mesh =>
         match tryGet root.meshes mesh with
         | Except.error _ => [("mesh", "Index out of range")]
         | Except.ok _ => []
       | none => [])
   ++ (match n.skin with
       | some skin =>
         match tryGet root.skins skin with
         | Except.error _ => [("skin", "Index out of range")]
         | Except.ok _ => []
       | none => []))

/-- Body of the root-node loop in `Validate for Scene`
(`v2/raw/scene.rs`). -/
def sceneNodeCheck {Mat MeshT : Type} (root : RawRoot Mat MeshT)
    (i : Nat) (node : Nat) : List Diag :=
  match tryGet root.nodes node with
  | Except.error _ => [("node[" ++ Nat.repr i ++ "]", "Index out of range")]
  | Except.ok _ => []

/-- `Validate for Scene` in `v2/raw/scene.rs`. -/
def sceneValidate {Mat MeshT : Type} (root : RawRoot Mat MeshT)
    (s : Scene) : DiagPair :=
  ([], forEachIdx (sceneNodeCheck root) 0 s.nodes)

/-- Body of the joint loop in `Validate for Skin` (`v2/raw/skin.rs`). -/
def skinJointCheck {Mat MeshT : Type} (root : RawRoot Mat MeshT)
    (i : Nat) (joint : Nat) : List Diag :=
  match tryGet root.nodes joint with
  | Except.error _ => [("joints[" ++ Nat.repr i ++ "]", "Index out of range")]
  | Except.ok _ => []

/-- `Validate for Skin` in `v2/raw/skin.rs`. -/
def skinValidate {Mat MeshT : Type} (root : RawRoot Mat MeshT)
    (s : Skin) : DiagPair :=
  ([],
   (match s.inverse_bind_matrices with
    | some accessor =>
      match tryGet root.accessors accessor with
      | Except.error _ => [("accessor", "Index out of range")]
      | Except.ok _ => []
    | none => [])
   ++ forEachIdx (skinJointCheck root) 0 s.joints
   ++ (match s.skeleton with
       | some node =>
         match tryGet root.nodes node with
         | Except.error _ => [("skeleton", "Index out of range")]
         | Except.ok _ => []
       | none => []))

/-- `Validate for Texture` in `v2/raw/texture.rs`. -/
def textureValidate {Mat MeshT : Type} (root : RawRoot Mat MeshT)
    (t : Texture) : DiagPair :=
  ([],
   (match tryGet root.samplers t.sampler with
    | Except.error _ => [("sampler", "Index out of range")]
    | Except.ok _ => [])
   ++ (match tryGet root.images t.source with
       | Except.error _ => [("source", "Index out of range")]
       | Except.ok _ => []))

/-- Body of the sampler loop in `Validate for Animation`
(`v2/raw/animation.rs`).  The `output` diagnostic's source is spelled
`samples[i].output` in the source. -/
def animSamplerCheck {Mat MeshT : Type} (root : RawRoot Mat MeshT)
    (i : Nat) (s : AnimSampler) : List Diag :=
  (match tryGet root.accessors s.input with
   | Except.error _ =>
     [("samplers[" ++ Nat.repr i ++ "].input", "Index out of range")]
   | Except.ok _ => [])
  ++ (match tryGet root.accessors s.output with
      | Except.error _ =>
        [("samples[" ++ Nat.repr i ++ "].output", "Index out of range")]
      | Except.ok _ => [])

/-- Body of the channel loop in `Validate for Animation`
(`v2/raw/animation.rs`).  The channel's sampler index is compared against
the animation's own `samplers` length, not resolved through the root. -/
def animChannelCheck {Mat MeshT : Type} (root : RawRoot Mat MeshT)
    (a : Animation) (i : Nat) (c : Channel) : List Diag :=
  (match tryGet root.nodes c.target.node with
   | Except.error _ =>
     [("channels[" ++ Nat.repr i ++ "].target.node", "Index out of range")]
   | Except.ok _ => [])
  ++ (if a.samplers.length ≤ c.sampler then
        [("channels[" ++ Nat.repr i ++ "].sampler", "Index out of range")]
      else [])

/-- `Validate for Animation` in `v2/raw/animation.rs`. -/
def animationValidate {Mat MeshT : Type} (root : RawRoot Mat MeshT)
    (a : Animation) : DiagPair :=
  ([], forEachIdx (animSamplerCheck root) 0 a.samplers
       ++ forEachIdx (animChannelCheck root a) 0 a.channels)

/-- The `format!("name[{}].{}", i, source)` re-prefixing that
`Validate for Root` wraps around every nested validator call. -/
def prefixDiags (p : String) (ds : List Diag) : List Diag :=
  ds.map fun d => (p ++ d.1, d.2)

/-- One collection loop of `Validate for Root` (`v2/root.rs`): validate
every element, re-prefixing each emitted diagnostic with
`name[i].`. -/
def validateEach {α : Type} (name : String) (f : α → DiagPair) :
    Nat → List α → DiagPair
  | _, [] => ([], [])
  | i0, x :: xs =>
    let p := name ++ "[" ++ Nat.repr i0 ++ "]."
    let head := f x
    let rest := validateEach name f (i0 + 1) xs
    (prefixDiags p head.1 ++ rest.1, prefixDiags p head.2 ++ rest.2)

/-- `Validate for Root` in `v2/root.rs`: every top-level collection in
source order, the default-scene check between the skin and texture
loops.  The accessor, material and mesh validators live in modules
missing from the available sources and are taken as parameters; `Root`
re-prefixes their diagnostics exactly as it does the others (note the
source's prefixes `mesh[` and `node[` for the mesh and node loops). -/
def rootValidate {Mat MeshT : Type}
    (accessorValidate : RawRoot Mat MeshT → Accessor → DiagPair)
    (materialValidate : RawRoot Mat MeshT → Mat → DiagPair)
    (meshValidate : RawRoot Mat MeshT → MeshT → DiagPair)
    (r : RawRoot Mat MeshT) : DiagPair :=
  let acc := validateEach "accessors" (accessorValidate r) 0 r.accessors
  let anim := validateEach "animations" (animationValidate r) 0 r.animations
  let buf := validateEach "buffers" bufferValidate 0 r.buffers
  let bv := validateEach "bufferViews" (bufferViewValidate r) 0 r.buffer_views
  let cam := validateEach "cameras" cameraValidate 0 r.cameras
  let img := validateEach "images" (imageValidate r) 0 r.images
  let mat := validateEach "materials" (materialValidate r) 0 r.materials
  let mesh := validateEach "mesh" (meshValidate r) 0 r.meshes
  let node := validateEach "node" (nodeValidate r) 0 r.nodes
  let scn := validateEach "scenes" (sceneValidate r) 0 r.scenes
  let skn := validateEach "skins" (skinValidate r) 0 r.skins
  let sceneCheck : List Diag :=
    match tryGet r.scenes r.default_scene with
    | Except.error _ => [("scene", "Index out of range")]
    | Except.ok _ => []
  let tex := validateEach "textures" (textureValidate r) 0 r.textures
  (acc.1 ++ anim.1 ++ buf.1 ++ bv.1 ++ cam.1 ++ img.1 ++ mat.1 ++ mesh.1
     ++ node.1 ++ scn.1 ++ skn.1 ++ tex.1,
   acc.2 ++ anim.2 ++ buf.2 ++ bv.2 ++ cam.2 ++ img.2 ++ mat.2 ++ mesh.2
     ++ node.2 ++ scn.2 ++ skn.2 ++ sceneCheck ++ tex.2)

/-- The accessor iterator state (`Iter` of `v2/accessor.rs` /
`v2/tree/accessor.rs`): remaining `count`, the read pointer (tracked as
the byte offset `pos` from the start of the parent buffer's data) and
the view's `stride`. -/
structure Iter where
  count : Nat
  pos : Nat
  stride : Nat
deriving Repr, DecidableEq

/-- `Iter::next`: when `count > 0`, read `size_of::<T>()` bytes at the
current position (the returned span `(pos, sizeT)`), decrement `count`
and advance by the stride if nonzero, else by `size_of::<T>()`. -/
def Iter.next (sizeT : Nat) (it : Iter) : Option ((Nat × Nat) × Iter) :=
  if 0 < it.count then
    some ((it.pos, sizeT),
      { count := it.count - 1,
        pos := it.pos + (if 0 < it.stride then it.stride else sizeT),
        stride := it.stride })
  else
    none

/-- Driving `Iter.next` with the given fuel, collecting the byte span
`(start, length)` of every read it performs. -/
def spansAux (sizeT : Nat) : Nat → Iter → List (Nat × Nat)
  | 0, _ => []
  | fuel + 1, it =>
    match Iter.next sizeT it with
    | some (sp, it2) => sp :: spansAux sizeT fuel it2
    | none => []

/-- The full read trace of an iterator: the spans of all reads it
performs until exhaustion (`count` steps). -/
def Iter.spans (sizeT : Nat) (it : Iter) : List (Nat × Nat) :=
  spansAux sizeT it.count it

/-- `Accessor::iter` of `v2/tree/accessor.rs` (the checked variant):
`Err(())` when `component_size() != size_of::<T>()`, checked before
anything else.  Otherwise the buffer view is fetched with the panicking
`get`, and `BufferView::data()` (`v2/tree/buffer.rs`) then indexes the
per-buffer preloaded data (one entry per declared buffer, each of the
declared `byte_length`) with the view's parent-buffer index and slices
`[byte_offset .. byte_offset + byte_length]` out of it; `none` marks any
of these three panics (unresolved view index, unresolved parent-buffer
index, view range exceeding the buffer's data).  On success the iterator
starts at `buffer_view.byte_offset + accessor.byte_offset` within the
parent buffer (the view's data slice begins at `byte_offset`, and the
read pointer is offset a further `accessor.byte_offset` into it). -/
def accessorIterChecked {Mat MeshT : Type} (sizeT : Nat)
    (r : RawRoot Mat MeshT) (a : Accessor) : Option (Except Unit Iter) :=
  if a.component_size ≠ sizeT then
    some (Except.error ())
  else
    match r.buffer_views[a.buffer_view]? with
    | some v =>
      match r.buffers[v.buffer]? with
      | some b =>
        if v.byte_offset + v.byte_length ≤ b.byte_length then
          some (Except.ok
            { count := a.count,
              pos := v.byte_offset + a.byte_offset,
              stride := v.byte_stride })
        else none
      | none => none
    | none => none

/-- `Accessor::iter` of `v2/accessor.rs` (the unchecked variant):
`assert!(component_size == size_of::<T>())` panics on mismatch (`none`),
then `root.get(buffer_view)` and `BufferView::data()` of `v2/buffer.rs`
(index into the per-buffer data vector, then the
`[byte_offset .. byte_offset + byte_length]` slice) panic exactly as in
the checked variant. -/
def accessorIterUnchecked {Mat MeshT : Type} (sizeT : Nat)
    (r : RawRoot Mat MeshT) (a : Accessor) : Option Iter :=
  if a.component_size ≠ sizeT then
    none
  else
    match r.buffer_views[a.buffer_view]? with
    | some v =>
      match r.buffers[v.buffer]? with
      | some b =>
        if v.byte_offset + v.byte_length ≤ b.byte_length then
          some { count := a.count,
                 pos := v.byte_offset + a.byte_offset,
                 stride := v.byte_stride }
        else none
      | none => none
    | none => none

/-- The per-element advance of the iterator: the view's stride when
nonzero, else tight packing by `size_of::<T>()`. -/
def stepOf (stride sizeT : Nat) : Nat :=
  if 0 < stride then stride else sizeT

/-- `offset_of_nearest_alignment_boundary` of `v2/tree/buffer.rs`:
`[0, 3, 2, 1][address as usize % 4]`. -/
def offset_of_nearest_alignment_boundary (address : Nat) : Nat :=
  [0, 3, 2, 1].get ⟨address % 4, Nat.mod_lt address (by decide)⟩

/-- `AlignedByteBuffer` of `v2/tree/buffer.rs`, abstracted to addresses
and lengths (its bytes start uninitialized and no embedded function
reads them): the backing allocation's start address, the allocation
length (`data.len()`), requested `len` and leading `offset`. -/
structure AlignedByteBuffer where
  alloc_base : Nat
  alloc_len : Nat
  len : Nat
  offset : Nat
deriving Repr, DecidableEq

/-- `AlignedByteBuffer::uninitialized`: allocate `len + 3` bytes at
`base` and trim `offset_of_nearest_alignment_boundary(base)` leading
bytes. -/
def AlignedByteBuffer.uninitialized (base len : Nat) : AlignedByteBuffer :=
  { alloc_base := base,
    alloc_len := len + 3,
    len := len,
    offset := offset_of_nearest_alignment_boundary base }

/-- `Deref for AlignedByteBuffer`: the exposed slice is
`data[offset .. offset + len]`; its first byte's address. -/
def AlignedByteBuffer.derefStart (b : AlignedByteBuffer) : Nat :=
  b.alloc_base + b.offset

/-- `Deref for AlignedByteBuffer`: the exposed slice's end offset within
the allocation (`offset + len`). -/
def AlignedByteBuffer.derefEnd (b : AlignedByteBuffer) : Nat :=
  b.offset + b.len

/-- Number of diagnostics in `ds` whose source is `s`. -/
def countSrc (s : String) (ds : List Diag) : Nat :=
  ds.countP fun d => d.1 == s

/-- Numeric value of a decimal digit character. -/
def charVal (c : Char) : Nat := c.toNat - 48

/-- Value of a big-endian list of decimal digit characters (the shape
`Nat.repr` produces). -/
def ofDigits10 : List Char → Nat
  | [] => 0
  | c :: cs => charVal c * 10 ^ cs.length + ofDigits10 cs

/-- The spec's name of the sub-block matching a declared projection
kind. -/
def CameraType.tagName : CameraType → String
  | Orthographic => "orthographic"
  | Perspective => "perspective"

/-- The other projection kind. -/
def CameraType.other : CameraType → CameraType
  | Orthographic => Perspective
  | Perspective => Orthographic

/-- Whether the sub-block named by the declared projection kind is
present. -/
def Camera.declaredBlockPresent (c : Camera) : Bool :=
  match c.ty with
  | CameraType.Orthographic => c.orthographic.isSome
  | CameraType.Perspective => c.perspective.isSome

/-- Whether the sub-block of the other projection kind is present. -/
def Camera.otherBlockPresent (c : Camera) : Bool :=
  match c.ty with
  | CameraType.Orthographic => c.perspective.isSome
  | CameraType.Perspective => c.orthographic.isSome

/-- A document with every collection empty (all concrete documents below
are record updates of it). -/
def emptyRoot : RawRoot Unit Unit :=
  { accessors := [], animations := [], buffers := [], buffer_views := [],
    default_scene := 0, cameras := [], images := [], materials := [],
    meshes := [], nodes := [], samplers := [], scenes := [], skins := [],
    textures := [] }

theorem charVal_digitChar : ∀ d : Nat, d < 10 → charVal (Nat.digitChar d) = d := by
  decide

theorem ofDigits10_toDigitsCore :
    ∀ (fuel n : Nat) (ds : List Char), n < fuel →
      ofDigits10 (Nat.toDigitsCore 10 fuel n ds) =
        n * 10 ^ ds.length + ofDigits10 ds := by
  intro fuel
  induction fuel with
  | zero => intro n ds h; omega
  | succ fuel ih =>
    intro n ds h
    by_cases hz : n / 10 = 0
    · have hn10 : n < 10 := by omega
      have hmod : n % 10 = n := by omega
      simp only [Nat.toDigitsCore, hz, if_true, ofDigits10]
      rw [charVal_digitChar _ (Nat.mod_lt n (by decide)), hmod]
    · have hlt : n / 10 < fuel := by omega
      simp only [Nat.toDigitsCore, hz, if_false]
      rw [ih (n / 10) (Nat.digitChar (n % 10) :: ds) hlt]
      simp only [ofDigits10, List.length_cons]
      rw [charVal_digitChar _ (Nat.mod_lt n (by decide))]
      have hsplit : 10 * (n / 10) + n % 10 = n := Nat.div_add_mod n 10
      calc n / 10 * 10 ^ (ds.length + 1) + (n % 10 * 10 ^ ds.length + ofDigits10 ds)
          = (10 * (n / 10) + n % 10) * 10 ^ ds.length + ofDigits10 ds := by ring
        _ = n * 10 ^ ds.length + ofDigits10 ds := by rw [hsplit]

theorem ofDigits10_repr (n : Nat) : ofDigits10 (Nat.repr n).data = n := by
  have h : (Nat.repr n).data = Nat.toDigitsCore 10 (n + 1) n [] := rfl
  rw [h, ofDigits10_toDigitsCore (n + 1) n [] (Nat.lt_succ_self n)]
  simp [ofDigits10]

theorem natRepr_injective {m n : Nat} (h : Nat.repr m = Nat.repr n) : m = n := by
  have h2 := congrArg (fun s => ofDigits10 s.data) h
  simpa [ofDigits10_repr] using h2

theorem str_eq_of_data {s t : String} (h : s.data = t.data) : s = t := by
  cases s; cases t; exact congrArg String.mk h

theorem strCat_ne_of_get (k : Nat) (p q a b : String)
    (h1 : k < p.data.length) (h2 : k < q.data.length)
    (hne : p.data[k]? ≠ q.data[k]?) : p ++ a ≠ q ++ b := by
  intro h
  have hd : p.data ++ a.data = q.data ++ b.data := by
    have h3 := congrArg String.data h
    simpa [String.data_append] using h3
  have h4 : (p.data ++ a.data)[k]? = (q.data ++ b.data)[k]? := by rw [hd]
  rw [List.getElem?_append_left h1, List.getElem?_append_left h2] at h4
  exact hne h4

theorem strCat_ne_of_last (x y s t : String)
    (c d : Char) (hs : s.data.getLast? = some c) (ht : t.data.getLast? = some d)
    (hne : c ≠ d) : x ++ s ≠ y ++ t := by
  intro h
  have hd : x.data ++ s.data = y.data ++ t.data := by
    have h3 := congrArg String.data h
    simpa [String.data_append] using h3
  have h4 : (x.data ++ s.data).getLast? = (y.data ++ t.data).getLast? := by rw [hd]
  rw [List.getLast?_append, List.getLast?_append, hs, ht] at h4
  simp only [Option.or] at h4
  exact hne (Option.some.inj h4)

theorem strMid_inj (p s : String) {i j : Nat}
    (h : p ++ Nat.repr i ++ s = p ++ Nat.repr j ++ s) : i = j := by
  apply natRepr_injective
  apply str_eq_of_data
  have hd : p.data ++ ((Nat.repr i).data ++ s.data)
      = p.data ++ ((Nat.repr j).data ++ s.data) := by
    have h3 := congrArg String.data h
    simpa [String.data_append, List.append_assoc] using h3
  have h5 := List.append_cancel_left hd
  exact List.append_cancel_right h5

theorem countSrc_append (s : String) (ds es : List Diag) :
    countSrc s (ds ++ es) = countSrc s ds + countSrc s es :=
  List.countP_append _ _ _

theorem countSrc_nil (s : String) : countSrc s [] = 0 := rfl

theorem countSrc_single (s : String) (d : Diag) :
    countSrc s [d] = if d.1 = s then 1 else 0 := by
  simp only [countSrc, List.countP_cons, List.countP_nil, Nat.zero_add]
  by_cases h : d.1 = s <;> simp [h]

theorem countSrc_single_ne (s : String) (d : Diag) (h : d.1 ≠ s) :
    countSrc s [d] = 0 := by
  rw [countSrc_single]; simp [h]

theorem countSrc_forEachIdx_zero {α : Type} (gen : Nat → α → List Diag)
    (s : String) :
    ∀ (xs : List α) (i : Nat),
      (∀ j x, i ≤ j → countSrc s (gen j x) = 0) →
      countSrc s (forEachIdx gen i xs) = 0 := by
  intro xs
  induction xs with
  | nil => intro i _; rfl
  | cons x rest ih =>
    intro i hz
    rw [forEachIdx, countSrc_append, hz i x (Nat.le_refl i),
      ih (i + 1) (fun j y hj => hz j y (by omega))]

theorem countSrc_forEachIdx {α : Type} (gen : Nat → α → List Diag)
    (s : String) (k : Nat)
    (hother : ∀ j x, j ≠ k → countSrc s (gen j x) = 0) :
    ∀ (xs : List α) (i : Nat) (hik : i ≤ k) (hk : k - i < xs.length),
      countSrc s (forEachIdx gen i xs) =
        countSrc s (gen k (xs.get ⟨k - i, hk⟩)) := by
  intro xs
  induction xs with
  | nil => intro i _ hk; simp at hk
  | cons x rest ih =>
    intro i hik hk
    rw [forEachIdx, countSrc_append]
    by_cases hi : i = k
    · subst hi
      have hz : countSrc s (forEachIdx gen (i + 1) rest) = 0 :=
        countSrc_forEachIdx_zero gen s rest (i + 1)
          (fun j y hj => hother j y (by omega))
      simp [hz]
    · have hik2 : i + 1 ≤ k := by omega
      have hk2 : k - (i + 1) < rest.length := by
        simp only [List.length_cons] at hk; omega
      rw [hother i x hi, ih (i + 1) hik2 hk2, Nat.zero_add]
      congr 1
      have hidx : k - i = (k - (i + 1)) + 1 := by omega
      rw [List.get_of_eq rfl]
      congr 1 <;> simp [hidx]

theorem countSrc_prefixDiags_zero (p t : String) (ds : List Diag)
    (h : t.length < p.length) : countSrc t (prefixDiags p ds) = 0 := by
  induction ds with
  | nil => rfl
  | cons d rest ih =>
    have hne : p ++ d.1 ≠ t := by
      intro he
      have hlen := congrArg String.length he
      rw [String.length_append] at hlen
      omega
    have hsplit : prefixDiags p (d :: rest)
        = [(p ++ d.1, d.2)] ++ prefixDiags p rest := rfl
    rw [hsplit, countSrc_append, countSrc_single_ne t _ hne, ih, Nat.zero_add]

theorem tryGet_ok {α : Type} (xs : List α) (i : Nat) (h : i < xs.length) :
    tryGet xs i = Except.ok (get xs i h) := by
  unfold tryGet get
  rw [List.getElem?_eq_getElem h]
  simp [List.get_eq_getElem]

theorem tryGet_err {α : Type} (xs : List α) (i : Nat) (h : xs.length ≤ i) :
    tryGet xs i = Except.error () := by
  unfold tryGet
  rw [List.getElem?_eq_none h]

theorem tryGet_err_iff {α : Type} (xs : List α) (i : Nat) :
    tryGet xs i = Except.error () ↔ xs.length ≤ i := by
  constructor
  · intro h
    by_contra hlt
    push_neg at hlt
    rw [tryGet_ok xs i hlt] at h
    exact Except.noConfusion h
  · exact tryGet_err xs i

theorem countSrc_validateEach_zero {α : Type} (name : String) (f : α → DiagPair)
    (t : String) (h : t.length < name.length + 3) :
    ∀ (xs : List α) (i : Nat), countSrc t (validateEach name f i xs).2 = 0 := by
  intro xs
  induction xs with
  | nil => intro i; rfl
  | cons x rest ih =>
    intro i
    have hrw : (validateEach name f i (x :: rest)).2
        = prefixDiags (name ++ "[" ++ Nat.repr i ++ "].") (f x).2
          ++ (validateEach name f (i + 1) rest).2 := rfl
    rw [hrw, countSrc_append, ih (i + 1)]
    have hp : t.length < (name ++ "[" ++ Nat.repr i ++ "].").length := by
      rw [String.length_append, String.length_append, String.length_append]
      have h1 : ("[" : String).length = 1 := rfl
      have h2 : ("]." : String).length = 2 := rfl
      omega
    rw [countSrc_prefixDiags_zero _ _ _ hp]

theorem spansAux_closed (sizeT : Nat) :
    ∀ (fuel pos stride : Nat),
      spansAux sizeT fuel ⟨fuel, pos, stride⟩ =
        (List.range fuel).map
          (fun i => (pos + i * stepOf stride sizeT, sizeT)) := by
  intro fuel
  induction fuel with
  | zero => intro pos stride; rfl
  | succ fuel ih =>
    intro pos stride
    have hnext : Iter.next sizeT ⟨fuel + 1, pos, stride⟩ =
        some ((pos, sizeT),
          ⟨fuel, pos + (if 0 < stride then stride else sizeT), stride⟩) := by
      simp [Iter.next]
    simp only [spansAux, hnext]
    rw [ih (pos + (if 0 < stride then stride else sizeT)) stride]
    rw [List.range_succ_eq_map, List.map_cons, List.map_map]
    congr 1
    · simp
    · apply List.map_congr_left
      intro i _
      simp only [Function.comp_apply, Nat.succ_eq_add_one, stepOf]
      have harith : pos + (if 0 < stride then stride else sizeT)
          + i * (if 0 < stride then stride else sizeT)
          = pos + (i + 1) * (if 0 < stride then stride else sizeT) := by
        generalize (if 0 < stride then stride else sizeT) = st
        ring
      rw [harith]

theorem spans_closed (sizeT : Nat) (it : Iter) :
    Iter.spans sizeT it =
      (List.range it.count).map
        (fun i => (it.pos + i * stepOf it.stride sizeT, sizeT)) := by
  cases it with
  | mk c p s => exact spansAux_closed sizeT c p s

theorem spans_length (sizeT : Nat) (it : Iter) :
    (Iter.spans sizeT it).length = it.count := by
  rw [spans_closed]; simp

theorem spans_getElem (sizeT : Nat) (it : Iter) (i : Nat) (h : i < it.count) :
    (Iter.spans sizeT it)[i]? =
      some (it.pos + i * stepOf it.stride sizeT, sizeT) := by
  rw [spans_closed, List.getElem?_map, List.getElem?_range h]
  rfl

theorem spans_mem (sizeT : Nat) (it : Iter) (sp : Nat × Nat)
    (h : sp ∈ Iter.spans sizeT it) :
    ∃ i, i < it.count ∧ sp = (it.pos + i * stepOf it.stride sizeT, sizeT) := by
  rw [spans_closed] at h
  obtain ⟨i, hi, hsp⟩ := List.mem_map.mp h
  exact ⟨i, List.mem_range.mp hi, hsp.symm⟩

/-- C1: for every top-level collection `xs` and index handle value `r`,
`try_get` is total (never panics); it returns `Ok` of the element at
position `r` when `r < xs.length` and `Err(())` (an error carrying no
context) when `xs.length ≤ r`; under the precondition `r < xs.length`,
`get` returns the same element as `try_get`. -/
theorem try_get_spec {α : Type} (xs : List α) (r : Nat) :
    (∀ h : r < xs.length,
      tryGet xs r = Except.ok (xs.get ⟨r, h⟩) ∧ get xs r h = xs.get ⟨r, h⟩) ∧
    (xs.length ≤ r → tryGet xs r = Except.error ()) :=
  ⟨fun h => ⟨tryGet_ok xs r h, rfl⟩, fun h => tryGet_err xs r h⟩

/-- C1, witness: `try_get` at an in-range and an out-of-range index of
concrete collections. -/
theorem try_get_spec_witness :
    tryGet [10, 20, 30] 1 = Except.ok 20 ∧
    tryGet ([10] : List Nat) 5 = Except.error () :=
  ⟨((try_get_spec [10, 20, 30] 1).1 (by decide)).1,
   (try_get_spec ([10] : List Nat) 5).2 (by decide)⟩

/-- C2: validating a buffer view emits exactly one "Oversized buffer
view" error with source `{byte_offset, byte_length}` when the buffer
reference resolves and `byte_offset + byte_length` (exact arithmetic on
the u32 field values) exceeds the referenced buffer's declared length;
exactly one "Index out of range" error with source `buffer` when it does
not resolve; and no diagnostics otherwise (warnings are never
emitted). -/
theorem bufferView_validate_spec {Mat MeshT : Type} (r : RawRoot Mat MeshT)
    (v : BufferView) :
    (bufferViewValidate r v).1 = [] ∧
    (∀ h : v.buffer < r.buffers.length,
      (bufferViewValidate r v).2 =
        if (get r.buffers v.buffer h).byte_length < v.byte_offset + v.byte_length
        then [("\x7bbyte_offset, byte_length\x7d", "Oversized buffer view")]
        else []) ∧
    (r.buffers.length ≤ v.buffer →
      (bufferViewValidate r v).2 = [("buffer", "Index out of range")]) := by
  refine ⟨?_, ?_, ?_⟩
  · by_cases h : v.buffer < r.buffers.length
    · simp only [bufferViewValidate, tryGet_ok r.buffers v.buffer h]
      split <;> rfl
    · push_neg at h
      simp only [bufferViewValidate, tryGet_err r.buffers v.buffer h]
  · intro h
    simp only [bufferViewValidate, tryGet_ok r.buffers v.buffer h]
    split <;> rfl
  · intro h
    simp only [bufferViewValidate, tryGet_err r.buffers v.buffer h]

/-- C2, witness: the spec's end-to-end scenario — one buffer of declared
length 12, one buffer view `(byte_offset 8, byte_length 8)`: exactly one
"Oversized buffer view" error and nothing else. -/
theorem bufferView_validate_spec_witness :
    (bufferViewValidate { emptyRoot with buffers := [⟨12⟩] }
        ⟨0, 8, 8, 0⟩).2
      = [("\x7bbyte_offset, byte_length\x7d", "Oversized buffer view")] ∧
    (bufferViewValidate { emptyRoot with buffers := [⟨12⟩] }
        ⟨0, 8, 8, 0⟩).1 = [] := by
  have h := bufferView_validate_spec
    ({ emptyRoot with buffers := [⟨12⟩] }) (⟨0, 8, 8, 0⟩ : BufferView)
  refine ⟨?_, h.1⟩
  rw [h.2.1 (by decide)]
  rfl

/-- C6: evaluation at the failing input.  A node with no camera
reference and a single unresolvable child reference produces no
diagnostics at all, because the source nests the `children` loop inside
the `if let Some(camera)` block; with a camera reference present the
same child reference does produce its "Index out of range" error. -/
theorem node_children_unchecked_without_camera :
    nodeValidate emptyRoot ⟨none, [0], none, none⟩ = ([], []) ∧
    tryGet emptyRoot.nodes 0 = Except.error () ∧
    nodeValidate { emptyRoot with cameras :=
        [⟨none, none, CameraType.Perspective⟩] } ⟨some 0, [0], none, none⟩
      = ([], [("children[0]", "Index out of range")]) := by
  refine ⟨rfl, rfl, ?_⟩
  rfl

/-- C7: validating a camera emits exactly one "Missing data" error,
sourced at the sub-block named by the declared projection kind, when
that sub-block is absent; exactly one "Redundant data" warning — never
an error — sourced at the other kind's sub-block when it is present; and
no diagnostics when the matching block is present and the other absent.
In particular a Perspective camera with no perspective block and a
present orthographic block yields exactly one error and one warning. -/
theorem camera_validate_spec (c : Camera) :
    ((cameraValidate c).2 =
      if c.declaredBlockPresent then []
      else [(c.ty.tagName, "Missing data")]) ∧
    ((cameraValidate c).1 =
      if c.otherBlockPresent then [(c.ty.other.tagName, "Redundant data")]
      else []) ∧
    (cameraValidate
        { orthographic := some ⟨0, 0, 0, 0⟩, perspective := none,
          ty := CameraType.Perspective }
      = ([("orthographic", "Redundant data")],
         [("perspective", "Missing data")])) := by
  refine ⟨?_, ?_, rfl⟩ <;>
    rcases c with ⟨o, p, ty⟩ <;> cases ty <;> cases o <;> cases p <;> rfl

/-- C8: whole-document validation emits exactly one error with source
`scene` — necessarily `("scene", "Index out of range")` — if and only if
the default-scene index is at least the scene-array length (every other
diagnostic is re-prefixed with `collection[i].`, which can never equal
`scene`, whatever the accessor/material/mesh validators emit); and every
texture contributes one "Index out of range" error for each of its
`sampler` and `source` references that does not resolve. -/
theorem root_validate_scene_texture_spec {Mat MeshT : Type}
    (accessorValidate : RawRoot Mat MeshT → Accessor → DiagPair)
    (materialValidate : RawRoot Mat MeshT → Mat → DiagPair)
    (meshValidate : RawRoot Mat MeshT → MeshT → DiagPair)
    (r : RawRoot Mat MeshT) :
    (countSrc "scene"
        (rootValidate accessorValidate materialValidate meshValidate r).2 =
      if r.scenes.length ≤ r.default_scene then 1 else 0) ∧
    (r.scenes.length ≤ r.default_scene →
      ("scene", "Index out of range") ∈
        (rootValidate accessorValidate materialValidate meshValidate r).2) ∧
    (∀ t : Texture,
      (textureValidate r t).2 =
        (if r.samplers.length ≤ t.sampler
         then [("sampler", "Index out of range")] else [])
        ++ (if r.images.length ≤ t.source
            then [("source", "Index out of range")] else [])) := by
  refine ⟨?_, ?_, ?_⟩
  · cases htg : tryGet r.scenes r.default_scene with
    | error e =>
      cases e
      have hoob : r.scenes.length ≤ r.default_scene :=
        (tryGet_err_iff _ _).mp htg
      simp only [rootValidate, htg, countSrc_append]
      rw [countSrc_validateEach_zero "accessors" _ "scene" (by decide) _ 0,
        countSrc_validateEach_zero "animations" _ "scene" (by decide) _ 0,
        countSrc_validateEach_zero "buffers" _ "scene" (by decide) _ 0,
        countSrc_validateEach_zero "bufferViews" _ "scene" (by decide) _ 0,
        countSrc_validateEach_zero "cameras" _ "scene" (by decide) _ 0,
        countSrc_validateEach_zero "images" _ "scene" (by decide) _ 0,
        countSrc_validateEach_zero "materials" _ "scene" (by decide) _ 0,
        countSrc_validateEach_zero "mesh" _ "scene" (by decide) _ 0,
        countSrc_validateEach_zero "node" _ "scene" (by decide) _ 0,
        countSrc_validateEach_zero "scenes" _ "scene" (by decide) _ 0,
        countSrc_validateEach_zero "skins" _ "scene" (by decide) _ 0,
        countSrc_validateEach_zero "textures" _ "scene" (by decide) _ 0,
        if_pos hoob]
      rfl
    | ok s =>
      have hoob : ¬ r.scenes.length ≤ r.default_scene := by
        intro hle
        rw [tryGet_err r.scenes r.default_scene hle] at htg
        exact Except.noConfusion htg
      simp only [rootValidate, htg, countSrc_append]
      rw [countSrc_validateEach_zero "accessors" _ "scene" (by decide) _ 0,
        countSrc_validateEach_zero "animations" _ "scene" (by decide) _ 0,
        countSrc_validateEach_zero "buffers" _ "scene" (by decide) _ 0,
        countSrc_validateEach_zero "bufferViews" _ "scene" (by decide) _ 0,
        countSrc_validateEach_zero "cameras" _ "scene" (by decide) _ 0,
        countSrc_validateEach_zero "images" _ "scene" (by decide) _ 0,
        countSrc_validateEach_zero "materials" _ "scene" (by decide) _ 0,
        countSrc_validateEach_zero "mesh" _ "scene" (by decide) _ 0,
        countSrc_validateEach_zero "node" _ "scene" (by decide) _ 0,
        countSrc_validateEach_zero "scenes" _ "scene" (by decide) _ 0,
        countSrc_validateEach_zero "skins" _ "scene" (by decide) _ 0,
        countSrc_validateEach_zero "textures" _ "scene" (by decide) _ 0,
        if_neg hoob]
      rfl
  · intro h
    have htg : tryGet r.scenes r.default_scene = Except.error () :=
      tryGet_err r.scenes r.default_scene h
    simp [rootValidate, htg]
  · intro t
    by_cases h1 : r.samplers.length ≤ t.sampler <;>
      by_cases h2 : r.images.length ≤ t.source
    · simp only [textureValidate, tryGet_err r.samplers t.sampler h1,
        tryGet_err r.images t.source h2, if_pos h1, if_pos h2]
    · push_neg at h2
      simp only [textureValidate, tryGet_err r.samplers t.sampler h1,
        tryGet_ok r.images t.source h2, if_pos h1,
        if_neg (Nat.not_le.mpr h2)]
    · push_neg at h1
      simp only [textureValidate, tryGet_ok r.samplers t.sampler h1,
        tryGet_err r.images t.source h2, if_neg (Nat.not_le.mpr h1),
        if_pos h2]
    · push_neg at h1
      push_neg at h2
      simp only [textureValidate, tryGet_ok r.samplers t.sampler h1,
        tryGet_ok r.images t.source h2, if_neg (Nat.not_le.mpr h1),
        if_neg (Nat.not_le.mpr h2)]

theorem chanTgt_ne_tgtNode (i j : Nat) :
    "channels[" ++ Nat.repr j ++ "].target.node"
      ≠ "channels[" ++ Nat.repr i ++ "].sampler" :=
  strCat_ne_of_last ("channels[" ++ Nat.repr j) ("channels[" ++ Nat.repr i)
    "].target.node" "].sampler" 'e' 'r' (by decide) (by decide) (by decide)

theorem chanTgt_ne_other {i j : Nat} (hne : j ≠ i) :
    "channels[" ++ Nat.repr j ++ "].sampler"
      ≠ "channels[" ++ Nat.repr i ++ "].sampler" :=
  fun he => hne (strMid_inj "channels[" "].sampler" he)

theorem chanTgt_ne_input (i j : Nat) :
    "samplers[" ++ Nat.repr j ++ "].input"
      ≠ "channels[" ++ Nat.repr i ++ "].sampler" :=
  strCat_ne_of_last ("samplers[" ++ Nat.repr j) ("channels[" ++ Nat.repr i)
    "].input" "].sampler" 't' 'r' (by decide) (by decide) (by decide)

theorem chanTgt_ne_output (i j : Nat) :
    "samples[" ++ Nat.repr j ++ "].output"
      ≠ "channels[" ++ Nat.repr i ++ "].sampler" :=
  strCat_ne_of_last ("samples[" ++ Nat.repr j) ("channels[" ++ Nat.repr i)
    "].output" "].sampler" 't' 'r' (by decide) (by decide) (by decide)

theorem inputTgt_ne_output (i j : Nat) :
    "samples[" ++ Nat.repr j ++ "].output"
      ≠ "samplers[" ++ Nat.repr i ++ "].input" := by
  rw [String.append_assoc, String.append_assoc]
  exact strCat_ne_of_get 7 "samples[" "samplers["
    (Nat.repr j ++ "].output") (Nat.repr i ++ "].input")
    (by decide) (by decide) (by decide)

theorem inputTgt_ne_other {i j : Nat} (hne : j ≠ i) :
    "samplers[" ++ Nat.repr j ++ "].input"
      ≠ "samplers[" ++ Nat.repr i ++ "].input" :=
  fun he => hne (strMid_inj "samplers[" "].input" he)

theorem inputTgt_ne_tgtNode (i j : Nat) :
    "channels[" ++ Nat.repr j ++ "].target.node"
      ≠ "samplers[" ++ Nat.repr i ++ "].input" :=
  strCat_ne_of_last ("channels[" ++ Nat.repr j) ("samplers[" ++ Nat.repr i)
    "].target.node" "].input" 'e' 't' (by decide) (by decide) (by decide)

theorem inputTgt_ne_chanSampler (i j : Nat) :
    "channels[" ++ Nat.repr j ++ "].sampler"
      ≠ "samplers[" ++ Nat.repr i ++ "].input" :=
  strCat_ne_of_last ("channels[" ++ Nat.repr j) ("samplers[" ++ Nat.repr i)
    "].sampler" "].input" 'r' 't' (by decide) (by decide) (by decide)

theorem outputTgt_ne_input (i j : Nat) :
    "samplers[" ++ Nat.repr j ++ "].input"
      ≠ "samples[" ++ Nat.repr i ++ "].output" := by
  rw [String.append_assoc, String.append_assoc]
  exact strCat_ne_of_get 7 "samplers[" "samples["
    (Nat.repr j ++ "].input") (Nat.repr i ++ "].output")
    (by decide) (by decide) (by decide)

theorem outputTgt_ne_other {i j : Nat} (hne : j ≠ i) :
    "samples[" ++ Nat.repr j ++ "].output"
      ≠ "samples[" ++ Nat.repr i ++ "].output" :=
  fun he => hne (strMid_inj "samples[" "].output" he)

theorem outputTgt_ne_tgtNode (i j : Nat) :
    "channels[" ++ Nat.repr j ++ "].target.node"
      ≠ "samples[" ++ Nat.repr i ++ "].output" :=
  strCat_ne_of_last ("channels[" ++ Nat.repr j) ("samples[" ++ Nat.repr i)
    "].target.node" "].output" 'e' 't' (by decide) (by decide) (by decide)

theorem outputTgt_ne_chanSampler (i j : Nat) :
    "channels[" ++ Nat.repr j ++ "].sampler"
      ≠ "samples[" ++ Nat.repr i ++ "].output" :=
  strCat_ne_of_last ("channels[" ++ Nat.repr j) ("samples[" ++ Nat.repr i)
    "].sampler" "].output" 'r' 't' (by decide) (by decide) (by decide)

theorem countSrc_chanCheck_self {Mat MeshT : Type} (r : RawRoot Mat MeshT)
    (a : Animation) (i : Nat) (c : Channel) :
    countSrc ("channels[" ++ Nat.repr i ++ "].sampler")
        (animChannelCheck r a i c) =
      if a.samplers.length ≤ c.sampler then 1 else 0 := by
  cases htg : tryGet r.nodes c.target.node with
  | error e =>
    simp only [animChannelCheck, htg, countSrc_append]
    rw [countSrc_single_ne _ _ (chanTgt_ne_tgtNode i i)]
    by_cases hs : a.samplers.length ≤ c.sampler
    · rw [if_pos hs, if_pos hs, countSrc_single, if_pos rfl]
    · rw [if_neg hs, if_neg hs, countSrc_nil]
  | ok x =>
    simp only [animChannelCheck, htg, countSrc_append]
    rw [countSrc_nil]
    by_cases hs : a.samplers.length ≤ c.sampler
    · rw [if_pos hs, if_pos hs, countSrc_single, if_pos rfl]
    · rw [if_neg hs, if_neg hs, countSrc_nil]

theorem countSrc_chanCheck_other {Mat MeshT : Type} (r : RawRoot Mat MeshT)
    (a : Animation) {i j : Nat} (hne : j ≠ i) (c : Channel) :
    countSrc ("channels[" ++ Nat.repr i ++ "].sampler")
        (animChannelCheck r a j c) = 0 := by
  cases htg : tryGet r.nodes c.target.node with
  | error e =>
    simp only [animChannelCheck, htg, countSrc_append]
    rw [countSrc_single_ne _ _ (chanTgt_ne_tgtNode i j)]
    by_cases hs : a.samplers.length ≤ c.sampler
    · rw [if_pos hs, countSrc_single_ne _ _ (chanTgt_ne_other hne)]
    · rw [if_neg hs, countSrc_nil]
  | ok x =>
    simp only [animChannelCheck, htg, countSrc_append]
    rw [countSrc_nil]
    by_cases hs : a.samplers.length ≤ c.sampler
    · rw [if_pos hs, countSrc_single_ne _ _ (chanTgt_ne_other hne)]
    · rw [if_neg hs, countSrc_nil]

theorem countSrc_samplerCheck_chanTgt {Mat MeshT : Type}
    (r : RawRoot Mat MeshT) (i j : Nat) (s : AnimSampler) :
    countSrc ("channels[" ++ Nat.repr i ++ "].sampler")
        (animSamplerCheck r j s) = 0 := by
  cases h1 : tryGet r.accessors s.input with
  | error e1 =>
    cases h2 : tryGet r.accessors s.output with
    | error e2 =>
      simp only [animSamplerCheck, h1, h2, countSrc_append]
      rw [countSrc_single_ne _ _ (chanTgt_ne_input i j),
        countSrc_single_ne _ _ (chanTgt_ne_output i j)]
    | ok x =>
      simp only [animSamplerCheck, h1, h2, countSrc_append, countSrc_nil]
      rw [countSrc_single_ne _ _ (chanTgt_ne_input i j)]
  | ok x1 =>
    cases h2 : tryGet r.accessors s.output with
    | error e2 =>
      simp only [animSamplerCheck, h1, h2, countSrc_append, countSrc_nil]
      rw [countSrc_single_ne _ _ (chanTgt_ne_output i j)]
    | ok x2 =>
      simp only [animSamplerCheck, h1, h2, countSrc_append, countSrc_nil]

theorem countSrc_samplerCheck_input_self {Mat MeshT : Type}
    (r : RawRoot Mat MeshT) (i : Nat) (s : AnimSampler) :
    countSrc ("samplers[" ++ Nat.repr i ++ "].input")
        (animSamplerCheck r i s) =
      if r.accessors.length ≤ s.input then 1 else 0 := by
  by_cases h1 : r.accessors.length ≤ s.input
  · rw [if_pos h1]
    cases h2 : tryGet r.accessors s.output with
    | error e =>
      simp only [animSamplerCheck, tryGet_err r.accessors s.input h1, h2,
        countSrc_append]
      rw [countSrc_single, if_pos rfl,
        countSrc_single_ne _ _ (inputTgt_ne_output i i)]
    | ok x =>
      simp only [animSamplerCheck, tryGet_err r.accessors s.input h1, h2,
        countSrc_append]
      rw [countSrc_single, if_pos rfl, countSrc_nil]
  · rw [if_neg h1]
    push_neg at h1
    cases h2 : tryGet r.accessors s.output with
    | error e =>
      simp only [animSamplerCheck, tryGet_ok r.accessors s.input h1, h2,
        countSrc_append, countSrc_nil]
      rw [countSrc_single_ne _ _ (inputTgt_ne_output i i)]
    | ok x =>
      simp only [animSamplerCheck, tryGet_ok r.accessors s.input h1, h2,
        countSrc_append, countSrc_nil]

theorem countSrc_samplerCheck_input_other {Mat MeshT : Type}
    (r : RawRoot Mat MeshT) {i j : Nat} (hne : j ≠ i) (s : AnimSampler) :
    countSrc ("samplers[" ++ Nat.repr i ++ "].input")
        (animSamplerCheck r j s) = 0 := by
  cases h1 : tryGet r.accessors s.input with
  | error e1 =>
    cases h2 : tryGet r.accessors s.output with
    | error e2 =>
      simp only [animSamplerCheck, h1, h2, countSrc_append]
      rw [countSrc_single_ne _ _ (inputTgt_ne_other hne),
        countSrc_single_ne _ _ (inputTgt_ne_output i j)]
    | ok x =>
      simp only [animSamplerCheck, h1, h2, countSrc_append, countSrc_nil]
      rw [countSrc_single_ne _ _ (inputTgt_ne_other hne)]
  | ok x1 =>
    cases h2 : tryGet r.accessors s.output with
    | error e2 =>
      simp only [animSamplerCheck, h1, h2, countSrc_append, countSrc_nil]
      rw [countSrc_single_ne _ _ (inputTgt_ne_output i j)]
    | ok x2 =>
      simp only [animSamplerCheck, h1, h2, countSrc_append, countSrc_nil]

theorem countSrc_chanCheck_inputTgt {Mat MeshT : Type} (r : RawRoot Mat MeshT)
    (a : Animation) (i j : Nat) (c : Channel) :
    countSrc ("samplers[" ++ Nat.repr i ++ "].input")
        (animChannelCheck r a j c) = 0 := by
  cases htg : tryGet r.nodes c.target.node with
  | error e =>
    by_cases hs : a.samplers.length ≤ c.sampler
    · simp only [animChannelCheck, htg, countSrc_append, if_pos hs]
      rw [countSrc_single_ne _ _ (inputTgt_ne_tgtNode i j),
        countSrc_single_ne _ _ (inputTgt_ne_chanSampler i j)]
    · simp only [animChannelCheck, htg, countSrc_append, if_neg hs,
        countSrc_nil]
      rw [countSrc_single_ne _ _ (inputTgt_ne_tgtNode i j)]
  | ok x =>
    by_cases hs : a.samplers.length ≤ c.sampler
    · simp only [animChannelCheck, htg, countSrc_append, if_pos hs,
        countSrc_nil]
      rw [countSrc_single_ne _ _ (inputTgt_ne_chanSampler i j)]
    · simp only [animChannelCheck, htg, countSrc_append, if_neg hs,
        countSrc_nil]

theorem countSrc_samplerCheck_output_self {Mat MeshT : Type}
    (r : RawRoot Mat MeshT) (i : Nat) (s : AnimSampler) :
    countSrc ("samples[" ++ Nat.repr i ++ "].output")
        (animSamplerCheck r i s) =
      if r.accessors.length ≤ s.output then 1 else 0 := by
  by_cases h2 : r.accessors.length ≤ s.output
  · rw [if_pos h2]
    cases h1 : tryGet r.accessors s.input with
    | error e =>
      simp only [animSamplerCheck, tryGet_err r.accessors s.output h2, h1,
        countSrc_append]
      rw [countSrc_single_ne _ _ (outputTgt_ne_input i i),
        countSrc_single, if_pos rfl]
    | ok x =>
      simp only [animSamplerCheck, tryGet_err r.accessors s.output h2, h1,
        countSrc_append, countSrc_nil]
      rw [countSrc_single, if_pos rfl]
  · rw [if_neg h2]
    push_neg at h2
    cases h1 : tryGet r.accessors s.input with
    | error e =>
      simp only [animSamplerCheck, tryGet_ok r.accessors s.output h2, h1,
        countSrc_append, countSrc_nil]
      rw [countSrc_single_ne _ _ (outputTgt_ne_input i i)]
    | ok x =>
      simp only [animSamplerCheck, tryGet_ok r.accessors s.output h2, h1,
        countSrc_append, countSrc_nil]

theorem countSrc_samplerCheck_output_other {Mat MeshT : Type}
    (r : RawRoot Mat MeshT) {i j : Nat} (hne : j ≠ i) (s : AnimSampler) :
    countSrc ("samples[" ++ Nat.repr i ++ "].output")
        (animSamplerCheck r j s) = 0 := by
  cases h1 : tryGet r.accessors s.input with
  | error e1 =>
    cases h2 : tryGet r.accessors s.output with
    | error e2 =>
      simp only [animSamplerCheck, h1, h2, countSrc_append]
      rw [countSrc_single_ne _ _ (outputTgt_ne_input i j),
        countSrc_single_ne _ _ (outputTgt_ne_other hne)]
    | ok x =>
      simp only [animSamplerCheck, h1, h2, countSrc_append, countSrc_nil]
      rw [countSrc_single_ne _ _ (outputTgt_ne_input i j)]
  | ok x1 =>
    cases h2 : tryGet r.accessors s.output with
    | error e2 =>
      simp only [animSamplerCheck, h1, h2, countSrc_append, countSrc_nil]
      rw [countSrc_single_ne _ _ (outputTgt_ne_other hne)]
    | ok x2 =>
      simp only [animSamplerCheck, h1, h2, countSrc_append, countSrc_nil]

theorem countSrc_chanCheck_outputTgt {Mat MeshT : Type} (r : RawRoot Mat MeshT)
    (a : Animation) (i j : Nat) (c : Channel) :
    countSrc ("samples[" ++ Nat.repr i ++ "].output")
        (animChannelCheck r a j c) = 0 := by
  cases htg : tryGet r.nodes c.target.node with
  | error e =>
    by_cases hs : a.samplers.length ≤ c.sampler
    · simp only [animChannelCheck, htg, countSrc_append, if_pos hs]
      rw [countSrc_single_ne _ _ (outputTgt_ne_tgtNode i j),
        countSrc_single_ne _ _ (outputTgt_ne_chanSampler i j)]
    · simp only [animChannelCheck, htg, countSrc_append, if_neg hs,
        countSrc_nil]
      rw [countSrc_single_ne _ _ (outputTgt_ne_tgtNode i j)]
  | ok x =>
    by_cases hs : a.samplers.length ≤ c.sampler
    · simp only [animChannelCheck, htg, countSrc_append, if_pos hs,
        countSrc_nil]
      rw [countSrc_single_ne _ _ (outputTgt_ne_chanSampler i j)]
    · simp only [animChannelCheck, htg, countSrc_append, if_neg hs,
        countSrc_nil]

/-- C10: for every animation, validation emits the error
`("channels[i].sampler", "Index out of range")` exactly once if and only
if the i-th channel's sampler index is at least the length of the
animation's own `samplers` array (a local check, independent of every
root collection), while each animation sampler's `input` and `output`
references are checked against the root `accessors` collection, the
output error being reported with source spelled `samples[i].output`. -/
theorem animation_validate_spec {Mat MeshT : Type} (r : RawRoot Mat MeshT)
    (a : Animation) :
    (∀ i (h : i < a.channels.length),
      countSrc ("channels[" ++ Nat.repr i ++ "].sampler")
          (animationValidate r a).2 =
        if a.samplers.length ≤ (a.channels.get ⟨i, h⟩).sampler
        then 1 else 0) ∧
    (∀ i (h : i < a.samplers.length),
      (countSrc ("samplers[" ++ Nat.repr i ++ "].input")
          (animationValidate r a).2 =
        if r.accessors.length ≤ (a.samplers.get ⟨i, h⟩).input
        then 1 else 0) ∧
      (countSrc ("samples[" ++ Nat.repr i ++ "].output")
          (animationValidate r a).2 =
        if r.accessors.length ≤ (a.samplers.get ⟨i, h⟩).output
        then 1 else 0)) := by
  refine ⟨?_, ?_⟩
  · intro i h
    have hz : countSrc ("channels[" ++ Nat.repr i ++ "].sampler")
        (forEachIdx (animSamplerCheck r) 0 a.samplers) = 0 :=
      countSrc_forEachIdx_zero _ _ a.samplers 0
        (fun j x _ => countSrc_samplerCheck_chanTgt r i j x)
    have hc : countSrc ("channels[" ++ Nat.repr i ++ "].sampler")
        (forEachIdx (animChannelCheck r a) 0 a.channels)
        = countSrc ("channels[" ++ Nat.repr i ++ "].sampler")
            (animChannelCheck r a i (a.channels.get ⟨i - 0, h⟩)) :=
      countSrc_forEachIdx (animChannelCheck r a) _ i
        (fun j x hj => countSrc_chanCheck_other r a hj x)
        a.channels 0 (Nat.zero_le i) h
    simp only [animationValidate, countSrc_append, hz, hc, Nat.zero_add]
    rw [countSrc_chanCheck_self]
    simp
  · intro i h
    constructor
    · have hz : countSrc ("samplers[" ++ Nat.repr i ++ "].input")
          (forEachIdx (animChannelCheck r a) 0 a.channels) = 0 :=
        countSrc_forEachIdx_zero _ _ a.channels 0
          (fun j x _ => countSrc_chanCheck_inputTgt r a i j x)
      have hc : countSrc ("samplers[" ++ Nat.repr i ++ "].input")
          (forEachIdx (animSamplerCheck r) 0 a.samplers)
          = countSrc ("samplers[" ++ Nat.repr i ++ "].input")
              (animSamplerCheck r i (a.samplers.get ⟨i - 0, h⟩)) :=
        countSrc_forEachIdx (animSamplerCheck r) _ i
          (fun j x hj => countSrc_samplerCheck_input_other r hj x)
          a.samplers 0 (Nat.zero_le i) h
      simp only [animationValidate, countSrc_append, hz, hc, Nat.add_zero]
      rw [countSrc_samplerCheck_input_self]
      simp
    · have hz : countSrc ("samples[" ++ Nat.repr i ++ "].output")
          (forEachIdx (animChannelCheck r a) 0 a.channels) = 0 :=
        countSrc_forEachIdx_zero _ _ a.channels 0
          (fun j x _ => countSrc_chanCheck_outputTgt r a i j x)
      have hc : countSrc ("samples[" ++ Nat.repr i ++ "].output")
          (forEachIdx (animSamplerCheck r) 0 a.samplers)
          = countSrc ("samples[" ++ Nat.repr i ++ "].output")
              (animSamplerCheck r i (a.samplers.get ⟨i - 0, h⟩)) :=
        countSrc_forEachIdx (animSamplerCheck r) _ i
          (fun j x hj => countSrc_samplerCheck_output_other r hj x)
          a.samplers 0 (Nat.zero_le i) h
      simp only [animationValidate, countSrc_append, hz, hc, Nat.add_zero]
      rw [countSrc_samplerCheck_output_self]
      simp

/-- C10, witness: an animation with one sampler (input/output accessor 0,
no accessors in the document) and one channel whose sampler index 1
equals the local samplers length: each diagnostic appears exactly
once. -/
theorem animation_validate_spec_witness :
    countSrc ("channels[" ++ Nat.repr 0 ++ "].sampler")
        (animationValidate emptyRoot
          ⟨[⟨1, ⟨0, AnimPath.Rotation⟩⟩],
           [⟨0, Interpolation.Linear, 0⟩]⟩).2 = 1 ∧
    countSrc ("samplers[" ++ Nat.repr 0 ++ "].input")
        (animationValidate emptyRoot
          ⟨[⟨1, ⟨0, AnimPath.Rotation⟩⟩],
           [⟨0, Interpolation.Linear, 0⟩]⟩).2 = 1 ∧
    countSrc ("samples[" ++ Nat.repr 0 ++ "].output")
        (animationValidate emptyRoot
          ⟨[⟨1, ⟨0, AnimPath.Rotation⟩⟩],
           [⟨0, Interpolation.Linear, 0⟩]⟩).2 = 1 := by
  have h := animation_validate_spec emptyRoot
    ⟨[⟨1, ⟨0, AnimPath.Rotation⟩⟩], [⟨0, Interpolation.Linear, 0⟩]⟩
  refine ⟨?_, ?_, ?_⟩
  · have h1 := h.1 0 (by decide)
    simpa using h1
  · have h2 := (h.2 0 (by decide)).1
    simpa [emptyRoot] using h2
  · have h3 := (h.2 0 (by decide)).2
    simpa [emptyRoot] using h3

theorem accessorIterChecked_ok_iff {Mat MeshT : Type} {sizeT : Nat}
    {r : RawRoot Mat MeshT} {a : Accessor} {it : Iter} :
    accessorIterChecked sizeT r a = some (Except.ok it) ↔
      a.component_size = sizeT ∧
      ∃ v, r.buffer_views[a.buffer_view]? = some v ∧
        ∃ b, r.buffers[v.buffer]? = some b ∧
          v.byte_offset + v.byte_length ≤ b.byte_length ∧
          it = ⟨a.count, v.byte_offset + a.byte_offset, v.byte_stride⟩ := by
  unfold accessorIterChecked
  constructor
  · intro h
    split at h
    · simp at h
    · split at h
      · split at h
        · split at h
          · rename_i hns x1 v hv x2 b hb hsl
            simp only [Option.some.injEq, Except.ok.injEq] at h
            exact ⟨by omega, v, hv, b, hb, hsl, h.symm⟩
          · simp at h
        · simp at h
      · simp at h
  · rintro ⟨hsz, v, hv, b, hb, hsl, rfl⟩
    have hnn : ¬(a.component_size ≠ sizeT) := by simp [hsz]
    simp only [if_neg hnn, hv, hb, if_pos hsl]

/-- C4 (amended): the checked iterator constructor returns `Err(())`
whenever the accessor's declared per-element byte size differs from
`size_of::<T>()` — the size test precedes every buffer-view/buffer
access and the result is independent of the whole document (the root is
universally quantified), so no buffer bytes are read — and the unchecked
variant's assertion panics on the same mismatch; when the sizes are
equal the constructor returns `Ok(iterator)` provided additionally the
buffer-view reference resolves, the view's parent-buffer reference
resolves, and the view's byte range fits in that buffer's data — the
lookups `BufferView::data()` performs otherwise panic, so equal sizes
alone do not guarantee `Ok` (see the counterexample). -/
theorem accessor_iter_size_spec {Mat MeshT : Type} (sizeT : Nat)
    (r : RawRoot Mat MeshT) (a : Accessor) :
    (a.component_size ≠ sizeT →
      accessorIterChecked sizeT r a = some (Except.error ()) ∧
      accessorIterUnchecked sizeT r a = none) ∧
    (∀ hv : a.buffer_view < r.buffer_views.length,
      ∀ hb : (get r.buffer_views a.buffer_view hv).buffer
        < r.buffers.length,
      (get r.buffer_views a.buffer_view hv).byte_offset
          + (get r.buffer_views a.buffer_view hv).byte_length
        ≤ (get r.buffers (get r.buffer_views a.buffer_view hv).buffer
            hb).byte_length →
      a.component_size = sizeT →
      accessorIterChecked sizeT r a =
        some (Except.ok
          { count := a.count,
            pos := (get r.buffer_views a.buffer_view hv).byte_offset
              + a.byte_offset,
            stride := (get r.buffer_views a.buffer_view hv).byte_stride })) := by
  constructor
  · intro hne
    exact ⟨by rw [accessorIterChecked, if_pos hne],
           by rw [accessorIterUnchecked, if_pos hne]⟩
  · intro hv hb hsl heq
    apply accessorIterChecked_ok_iff.mpr
    exact ⟨heq, get r.buffer_views a.buffer_view hv,
      List.getElem?_eq_getElem hv,
      get r.buffers (get r.buffer_views a.buffer_view hv).buffer hb,
      List.getElem?_eq_getElem hb, hsl, rfl⟩

/-- C4, counterexample: with equal sizes (declared per-element size 4,
target size 4) but a document whose buffer view references a parent
buffer that does not exist, neither variant constructs an iterator: the
parent-buffer lookup inside `BufferView::data()` panics, so equal sizes
alone do not make the checked constructor return `Ok`. -/
theorem accessor_iter_equal_size_panics :
    (⟨0, 0, ComponentType.F32, AccessorKind.Scalar, 2⟩
        : Accessor).component_size = 4 ∧
    accessorIterChecked 4
        { emptyRoot with buffer_views := [⟨0, 4, 0, 0⟩] }
        ⟨0, 0, ComponentType.F32, AccessorKind.Scalar, 2⟩ = none ∧
    accessorIterUnchecked 4
        { emptyRoot with buffer_views := [⟨0, 4, 0, 0⟩] }
        ⟨0, 0, ComponentType.F32, AccessorKind.Scalar, 2⟩ = none :=
  ⟨rfl, rfl, rfl⟩

/-- C4, witness: a float-scalar accessor (element size 4) in a document
whose 4-byte view lies within its 4-byte buffer, against target sizes 3
(mismatch: checked error, unchecked panic) and 4 (iterator
constructed). -/
theorem accessor_iter_size_spec_witness :
    accessorIterChecked 3
        { emptyRoot with buffers := [⟨4⟩], buffer_views := [⟨0, 4, 0, 0⟩] }
        ⟨0, 0, ComponentType.F32, AccessorKind.Scalar, 2⟩
      = some (Except.error ()) ∧
    accessorIterUnchecked 3
        { emptyRoot with buffers := [⟨4⟩], buffer_views := [⟨0, 4, 0, 0⟩] }
        ⟨0, 0, ComponentType.F32, AccessorKind.Scalar, 2⟩
      = none ∧
    accessorIterChecked 4
        { emptyRoot with buffers := [⟨4⟩], buffer_views := [⟨0, 4, 0, 0⟩] }
        ⟨0, 0, ComponentType.F32, AccessorKind.Scalar, 2⟩
      = some (Except.ok ⟨2, 0, 0⟩) := by
  have h3 := accessor_iter_size_spec 3
    { emptyRoot with buffers := [⟨4⟩], buffer_views := [⟨0, 4, 0, 0⟩] }
    (⟨0, 0, ComponentType.F32, AccessorKind.Scalar, 2⟩ : Accessor)
  have h4 := accessor_iter_size_spec 4
    { emptyRoot with buffers := [⟨4⟩], buffer_views := [⟨0, 4, 0, 0⟩] }
    (⟨0, 0, ComponentType.F32, AccessorKind.Scalar, 2⟩ : Accessor)
  refine ⟨(h3.1 (by decide)).1, (h3.1 (by decide)).2, ?_⟩
  have hok := h4.2 (by decide) (by decide) (by decide) (by decide)
  simpa using hok

/-- C5: the typed iterator yields exactly `count` elements and then
returns `None` forever (an exhausted iterator state never yields);
element `i` is read starting at byte offset
`buffer_view.byte_offset + accessor.byte_offset + i * step` of the
parent buffer, where `step` is the view's stride when nonzero and
`size_of::<T>()` when zero. -/
theorem accessor_iter_count_spec {Mat MeshT : Type} (sizeT : Nat)
    (r : RawRoot Mat MeshT) (a : Accessor) (v : BufferView) (it : Iter)
    (hv : r.buffer_views[a.buffer_view]? = some v)
    (hit : accessorIterChecked sizeT r a = some (Except.ok it)) :
    (Iter.spans sizeT it).length = a.count ∧
    (∀ i, i < a.count →
      (Iter.spans sizeT it)[i]? =
        some (v.byte_offset + a.byte_offset
          + i * (if 0 < v.byte_stride then v.byte_stride else sizeT),
          sizeT)) ∧
    (∀ p s, Iter.next sizeT ⟨0, p, s⟩ = none) := by
  obtain ⟨hsz, v2, hv2, b, hb, hsl, hitval⟩ :=
    accessorIterChecked_ok_iff.mp hit
  rw [hv] at hv2
  injection hv2 with hvv
  subst hvv
  subst hitval
  refine ⟨?_, ?_, ?_⟩
  · rw [spans_length]
  · intro i hi
    rw [spans_getElem sizeT _ i hi]
    rfl
  · intro p s
    rw [Iter.next]
    simp

/-- C5, witness: the spec's end-to-end scenario — count 3, 12-byte
elements, stride 0, starting at byte offset 4 of a 40-byte buffer:
exactly 3 elements, read from offsets 4, 16, 28, then exhaustion. -/
theorem accessor_iter_count_spec_witness :
    (Iter.spans 12 (⟨3, 4, 0⟩ : Iter)).length = 3 ∧
    (Iter.spans 12 (⟨3, 4, 0⟩ : Iter))[1]? = some (16, 12) ∧
    Iter.spans 12 (⟨3, 4, 0⟩ : Iter) = [(4, 12), (16, 12), (28, 12)] ∧
    Iter.next 12 (⟨0, 40, 0⟩ : Iter) = none := by
  have h := accessor_iter_count_spec 12
    { emptyRoot with buffers := [⟨40⟩], buffer_views := [⟨0, 36, 4, 0⟩] }
    ⟨0, 0, ComponentType.F32, AccessorKind.Vec3, 3⟩ ⟨0, 36, 4, 0⟩ ⟨3, 4, 0⟩
    (by rfl) (by rfl)
  refine ⟨h.1, ?_, by decide, h.2.2 40 0⟩
  have h2 := h.2.1 1 (by decide)
  simpa using h2

/-- C3 (amended): each element the iterator yields is read from the span
starting at `view.byte_offset + accessor.byte_offset + i * step`, and
every read falls inside the view's byte range
`[byte_offset, byte_offset + byte_length)` provided
`accessor.byte_offset + i * step + size_of::<T>() ≤ view.byte_length`
for every `i < count`; the iterator itself performs no per-step bounds
check, so without this containment precondition reads escape the view
(see the counterexample). -/
theorem accessor_iter_within_view {Mat MeshT : Type} (sizeT : Nat)
    (r : RawRoot Mat MeshT) (a : Accessor) (v : BufferView) (it : Iter)
    (hv : r.buffer_views[a.buffer_view]? = some v)
    (hit : accessorIterChecked sizeT r a = some (Except.ok it))
    (hb : ∀ i, i < a.count →
      a.byte_offset + i * stepOf v.byte_stride sizeT + sizeT
        ≤ v.byte_length) :
    ∀ sp ∈ Iter.spans sizeT it,
      v.byte_offset ≤ sp.1 ∧ sp.1 + sp.2 ≤ v.byte_offset + v.byte_length := by
  obtain ⟨hsz, v2, hv2, b2, hb2, hsl, hitval⟩ :=
    accessorIterChecked_ok_iff.mp hit
  rw [hv] at hv2
  injection hv2 with hvv
  subst hvv
  subst hitval
  intro sp hsp
  obtain ⟨i, hi, hsp2⟩ := spans_mem sizeT _ sp hsp
  subst hsp2
  have hbi := hb i hi
  constructor
  · simp only []
    omega
  · simp only []
    omega

/-- C3, counterexample: in a document whose buffer view passes
validation against its buffer, a float-scalar accessor with count 2 and
4-byte elements over a 4-byte view yields a second read spanning bytes
[4, 8), outside the view's range [0, 4): the claim's unconditional
containment is false. -/
theorem accessor_iter_reads_past_view :
    bufferViewValidate
        { emptyRoot with buffers := [⟨4⟩], buffer_views := [⟨0, 4, 0, 0⟩] }
        ⟨0, 4, 0, 0⟩ = ([], []) ∧
    accessorIterChecked 4
        { emptyRoot with buffers := [⟨4⟩], buffer_views := [⟨0, 4, 0, 0⟩] }
        ⟨0, 0, ComponentType.F32, AccessorKind.Scalar, 2⟩
      = some (Except.ok ⟨2, 0, 0⟩) ∧
    ¬ (∀ sp ∈ Iter.spans 4 (⟨2, 0, 0⟩ : Iter),
        (0 : Nat) ≤ sp.1 ∧ sp.1 + sp.2 ≤ 0 + 4) := by
  refine ⟨by decide, by rfl, ?_⟩
  intro hall
  have h := hall (4, 4) (by decide)
  omega

/-- C3, witness for the amended containment: the count-3 stride-0
scenario satisfies the containment precondition, and its third read
[28, 40) indeed lies inside the view range [4, 40). -/
theorem accessor_iter_within_view_witness :
    (28, 12) ∈ Iter.spans 12 (⟨3, 4, 0⟩ : Iter) ∧
    4 ≤ 28 ∧ 28 + 12 ≤ 4 + 36 := by
  have h := accessor_iter_within_view 12
    { emptyRoot with buffers := [⟨40⟩], buffer_views := [⟨0, 36, 4, 0⟩] }
    ⟨0, 0, ComponentType.F32, AccessorKind.Vec3, 3⟩ ⟨0, 36, 4, 0⟩ ⟨3, 4, 0⟩
    (by rfl) (by rfl) (by decide)
  have hm : ((28 : Nat), (12 : Nat)) ∈ Iter.spans 12 (⟨3, 4, 0⟩ : Iter) := by
    decide
  exact ⟨hm, h (28, 12) hm⟩

theorem offset_alignment (a : Nat) :
    offset_of_nearest_alignment_boundary a ≤ 3 ∧
    (a + offset_of_nearest_alignment_boundary a) % 4 = 0 := by
  have key : ∀ m, (hm : m < 4) →
      [0, 3, 2, 1].get ⟨m, hm⟩ ≤ 3 ∧
      (m + [0, 3, 2, 1].get ⟨m, hm⟩) % 4 = 0 := by decide
  obtain ⟨k1, k2⟩ := key (a % 4) (Nat.mod_lt a (by decide))
  unfold offset_of_nearest_alignment_boundary
  exact ⟨k1, by omega⟩

/-- C9: the alignment-padding function always returns a value in 0..=3
with `(address + result) % 4 = 0`; an aligned byte buffer of requested
length `n` allocates `n + 3` bytes, trims at most 3 leading bytes (the
exposed slice stays inside the allocation), its exposed slice starts at
a 4-byte-aligned address and has length exactly `n`. -/
theorem aligned_buffer_spec (a n : Nat) :
    offset_of_nearest_alignment_boundary a ≤ 3 ∧
    (a + offset_of_nearest_alignment_boundary a) % 4 = 0 ∧
    (AlignedByteBuffer.uninitialized a n).alloc_len = n + 3 ∧
    (AlignedByteBuffer.uninitialized a n).derefEnd
      - (AlignedByteBuffer.uninitialized a n).offset = n ∧
    (AlignedByteBuffer.uninitialized a n).derefEnd
      ≤ (AlignedByteBuffer.uninitialized a n).alloc_len ∧
    (AlignedByteBuffer.uninitialized a n).derefStart % 4 = 0 := by
  obtain ⟨h1, h2⟩ := offset_alignment a
  refine ⟨h1, h2, rfl, ?_, ?_, ?_⟩
  · simp [AlignedByteBuffer.uninitialized, AlignedByteBuffer.derefEnd]
  · simp only [AlignedByteBuffer.uninitialized, AlignedByteBuffer.derefEnd]
    omega
  · simp only [AlignedByteBuffer.uninitialized, AlignedByteBuffer.derefStart]
    exact h2

/-- C8, witness: a document whose default-scene index 0 equals the empty
scene-array length yields exactly one `scene`-sourced error, and a
texture with both references unresolvable yields both errors. -/
theorem root_validate_scene_texture_spec_witness :
    countSrc "scene"
        (rootValidate (fun _ _ => ([], [])) (fun _ _ => ([], []))
          (fun _ _ => ([], [])) emptyRoot).2 = 1 ∧
    ("scene", "Index out of range") ∈
      (rootValidate (fun _ _ => ([], [])) (fun _ _ => ([], []))
        (fun _ _ => ([], [])) emptyRoot).2 ∧
    (textureValidate emptyRoot
        ⟨TexDataType.U8, TexFormat.Rgba, TexFormat.Rgba, 0, 0,
         TexTarget.Texture2d⟩).2
      = [("sampler", "Index out of range"),
         ("source", "Index out of range")] := by
  have h := root_validate_scene_texture_spec
    (fun _ _ => ([], [])) (fun _ _ => ([], []))
    (fun _ _ => ([], [])) emptyRoot
  refine ⟨?_, h.2.1 (by decide), ?_⟩
  · have h1 := h.1
    simpa [emptyRoot] using h1
  · have h3 := h.2.2
      ⟨TexDataType.U8, TexFormat.Rgba, TexFormat.Rgba, 0, 0,
       TexTarget.Texture2d⟩
    simpa [emptyRoot] using h3
